import Mathlib

/-!
Shallow embedding of the AI Location Creator app (src/app.py) for verification.

The app keeps a per-session mutable state (chat history, a dict of collected
field values, the list of awaited field names, an approval status and the list
of created locations) and talks to a MySQL table of location rows.  We model:
  * the Python dict `collected_data` as an association list with Python dict
    update semantics (`dictGet` / `dictSet`),
  * the persisted `location` table as a list of `Row`s,
  * nondeterminism (random draws of candidate identifiers, database errors,
    timestamps, LLM replies) as explicit oracle parameters,
  * the unbounded `while True` retry loop of `generate_location_id` as a
    fuel-indexed recursion returning `Option String` (`none` models a
    non-terminating run, i.e. fuel exhaustion).
-/

/-- Association list standing for a Python `dict` from string keys to string
values; insertion order is preserved, as in Python. -/
abbrev Dict := List (String × String)

/-- Python `d.get(k)`: `some v` iff the key is present (so `some ""` is a
present key holding the empty string). -/
def dictGet (d : Dict) (k : String) : Option String :=
  match d with
  | [] => none
  | (k₀, v₀) :: rest => if k₀ = k then some v₀ else dictGet rest k

/-- Python `d[k] = v`: update in place if the key exists, else append. -/
def dictSet (d : Dict) (k v : String) : Dict :=
  match d with
  | [] => [(k, v)]
  | (k₀, v₀) :: rest => if k₀ = k then (k, v) :: rest else (k₀, v₀) :: dictSet rest k v

/-- Python `d[k]` on a dict where the key is present (the claims only apply the
persistence operation to fully-populated records, where this agrees with
`d[k]`). -/
def getField (d : Dict) (k : String) : String :=
  (dictGet d k).getD ""

/-- Python `str.lower()` (ASCII case folding, character by character). -/
def pyLower (s : String) : String :=
  String.mk (s.data.map Char.toLower)

/-- Python `str.strip()`: drop whitespace from both ends. -/
def pyStrip (s : String) : String :=
  String.mk (((s.data.dropWhile fun c => c.isWhitespace).reverse.dropWhile
    fun c => c.isWhitespace).reverse)

/-- Helper for `splitCommas`: accumulates the current chunk in reverse. -/
def splitCommasGo : List Char → List Char → List String
  | [], acc => [String.mk acc.reverse]
  | c :: rest, acc =>
    if c = ',' then String.mk acc.reverse :: splitCommasGo rest []
    else splitCommasGo rest (c :: acc)

/-- Python `str.split(",")`: cut the string at every comma (an empty string
yields `[""]`, adjacent commas yield empty chunks, exactly as in Python). -/
def splitCommas (s : String) : List String :=
  splitCommasGo s.data []

/-- One persisted row of the `location` table (timestamps kept as plain
strings). -/
structure Row where
  location_id : String
  location_name : String
  location_type : String
  zone : String
  aisle : String
  site_code : String
  created_by : String
  created_date : String
deriving DecidableEq

/-- A chat message (`{"role": ..., "text": ...}` in `st.session_state.chat_history`). -/
structure Msg where
  role : String
  text : String
deriving DecidableEq

/-- `required_fields` from app.py line 56. -/
def required_fields : List String :=
  ["location_name", "location_type", "zone", "aisle", "site_code"]

/-- Python truthiness test `not v` applied to the result of `dict.get`:
`None` and the empty string are falsy. -/
def falsyVal : Option String → Bool
  | none => true
  | some v => v = ""

/-- `missing_fields` (app.py lines 80-81): the required fields whose collected
value is absent or falsy (empty string). -/
def missing_fields (cd : Dict) : List String :=
  required_fields.filter (fun f => falsyVal (dictGet cd f))

/-! ## Identifier generator (app.py lines 83-105)

`generate_location_id` draws two random uppercase letters and three random
digits, then checks the table for a row with that `location_id`; on a clean
check with count 0 it returns the candidate, on a database error it returns
the candidate unverified, otherwise it retries.  The random source is modelled
as a stream of draws (`draws : Nat → IdDraw`), the possibility of a database
error during the check at iteration `i` as `err : Nat → Bool`, and the
unbounded loop by fuel. -/

/-- One draw of `random.choices(string.ascii_uppercase, k=2)` and
`random.choices(string.digits, k=3)`: indices into the two alphabets. -/
structure IdDraw where
  l1 : Fin 26
  l2 : Fin 26
  d1 : Fin 10
  d2 : Fin 10
  d3 : Fin 10

/-- The candidate string `f"{letters}{numbers}"` built from a draw. -/
def candidateOf (d : IdDraw) : String :=
  String.mk [Char.ofNat (65 + d.l1.val), Char.ofNat (65 + d.l2.val),
             Char.ofNat (48 + d.d1.val), Char.ofNat (48 + d.d2.val),
             Char.ofNat (48 + d.d3.val)]

/-- `SELECT COUNT(*) FROM location WHERE location_id = %s`. -/
def countId (db : List Row) (s : String) : Nat :=
  (db.filter (fun r => r.location_id = s)).length

/-- The regular expression `[A-Z]{2}[0-9]{3}`: exactly five characters, two
ASCII uppercase letters followed by three ASCII digits. -/
def matchesIdPattern (s : String) : Bool :=
  match s.data with
  | [a, b, c, d, e] => a.isUpper && b.isUpper && c.isDigit && d.isDigit && e.isDigit
  | _ => false

/-- `generate_location_id` (app.py lines 83-105), fuel-indexed.  At iteration
`i` the loop draws `draws i`; if the existence check raises a database error
(`err i = true`) the candidate is returned unverified (fail-open, lines
103-105); if the candidate is unused it is returned; otherwise the loop
retries with the next draw.  `none` models a run that has not terminated
within `fuel` iterations. -/
def generate_location_id (db : List Row) (err : Nat → Bool) (draws : Nat → IdDraw) :
    Nat → Nat → Option String
  | 0, _ => none
  | fuel + 1, i =>
    let loc_id := candidateOf (draws i)
    if err i then
      some loc_id
    else if countId db loc_id = 0 then
      some loc_id
    else
      generate_location_id db err draws fuel (i + 1)

/-! ## Persistence gateway (`save_to_mysql`, app.py lines 107-160)

The operation opens a connection, runs a case-insensitive duplicate-name
check that only emits a warning, inserts the row, commits, appends a snapshot
to the session's `created_locations` list, and returns a success string; every
`mysql.connector.Error` raised inside is caught and converted to a failure
string.  We model "a persistence error occurs during this operation" by the
oracle `dberr : Option String` (the error happening before any table mutation
or snapshot append, as at connection time); the current timestamp is the
oracle `now`.  The model is a total function into `SaveResult`, reflecting
that no exception escapes the `try`/`except` boundary. -/

/-- Result of one `save_to_mysql` call: the returned message, the table after
the call, the snapshot appended to `st.session_state.created_locations` (if
any) and whether the duplicate-name warning fired. -/
structure SaveResult where
  message : String
  db : List Row
  created_append : Option Row
  warned : Bool
deriving DecidableEq

/-- The success message of app.py line 158. -/
def successMsg (id : String) : String :=
  "✅ Location added to database successfully! Location ID: " ++ id

/-- The failure message of app.py line 160. -/
def dbErrorMsg (e : String) : String :=
  "❌ Database Error: " ++ e

/-- The row built and inserted by app.py lines 118-141 (each free-text field
stripped, `created_by` defaulting to "AI", `created_date` the current time). -/
def insertedRow (data : Dict) (now : String) : Row :=
  { location_id := getField data "location_id"
    location_name := pyStrip (getField data "location_name")
    location_type := pyStrip (getField data "location_type")
    zone := pyStrip (getField data "zone")
    aisle := pyStrip (getField data "aisle")
    site_code := pyStrip (getField data "site_code")
    created_by := (dictGet data "created_by").getD "AI"
    created_date := now }

/-- `SELECT COUNT(*) FROM location WHERE LOWER(location_name) = %s` with the
lowercased stripped name (app.py lines 122-124): is the count positive? -/
def dupNameExists (db : List Row) (nameClean : String) : Bool :=
  db.any (fun r => pyLower r.location_name = pyLower nameClean)

/-- `save_to_mysql` (app.py lines 107-160). -/
def save_to_mysql (data : Dict) (db : List Row) (dberr : Option String) (now : String) :
    SaveResult :=
  match dberr with
  | some e => { message := dbErrorMsg e, db := db, created_append := none, warned := false }
  | none =>
    let row := insertedRow data now
    { message := successMsg (getField data "location_id")
      db := db ++ [row]
      created_append := some row
      warned := dupNameExists db (pyStrip (getField data "location_name")) }

/-! ## Conversation state machine (app.py lines 44-54 and 207-257) -/

/-- `st.session_state` as touched by the input handler. -/
structure SessionState where
  chat_history : List Msg
  collected_data : Dict
  awaiting_fields : List String
  approval_status : Option String
  created_locations : List Row
deriving DecidableEq

/-- The empty session state created at session start (app.py lines 44-54). -/
def initialSessionState : SessionState :=
  { chat_history := []
    collected_data := []
    awaiting_fields := []
    approval_status := none
    created_locations := [] }

/-- The positional assignment loop of app.py lines 215-217: the i-th value is
written to the i-th awaited field; extra values are dropped and fields beyond
the number of values are left untouched. -/
def assignPositional : Dict → List String → List String → Dict
  | cd, _, [] => cd
  | cd, [], _ :: _ => cd
  | cd, f :: fs, v :: vs => assignPositional (dictSet cd f v) fs vs

/-- Step 1 of the handler (app.py lines 213-218): when fields are awaited,
split the message on commas, strip each value and assign positionally. -/
def applyAwaiting (cd : Dict) (awaiting : List String) (input : String) : Dict :=
  if awaiting.isEmpty then cd
  else assignPositional cd awaiting ((splitCommas input).map pyStrip)

/-- Python `str.title()` for ASCII text: a letter is uppercased when the
previous character is not a letter, lowercased otherwise. -/
def pyTitleGo : List Char → Bool → List Char
  | [], _ => []
  | c :: rest, prevAlpha =>
    (if c.isAlpha then (if prevAlpha then c.toLower else c.toUpper) else c) ::
      pyTitleGo rest c.isAlpha

/-- Python `str.title()`. -/
def pyTitle (s : String) : String :=
  String.mk (pyTitleGo s.data false)

/-- The re-prompt for missing fields (app.py lines 222-227). -/
def promptMsg (missing : List String) : String :=
  "I still need the following details: **" ++
    String.intercalate ", " (missing.map (fun f => f.replace "_" " ")) ++
    "**.\n\n👉 Please provide them in one message, separated by commas, in this order:\n`" ++
    String.intercalate ", " missing ++ "`"

/-- The review message shown before asking for confirmation (app.py lines
234-239). -/
def reviewMsg (cd : Dict) : String :=
  "Here are the details you provided:\n\n" ++
    String.intercalate "\n"
      (cd.map (fun kv => "- **" ++ pyTitle (kv.1.replace "_" " ") ++ "**: " ++ kv.2)) ++
    "\n\n✅ Do you want me to create this location in the system? (yes/no)"

/-- The cancellation message (app.py line 249). -/
def cancelMsg : String := "❌ Location creation cancelled."

/-- The yes/no re-prompt (app.py line 252). -/
def confirmPromptMsg : String := "Please type \x27yes\x27 or \x27no\x27 to confirm."

/-- Result of processing one user message: the new session state, the table
after the turn, the assistant reply appended to the history, and whether
`save_to_mysql` was invoked during the turn. -/
structure StepResult where
  state : SessionState
  db : List Row
  botReply : String
  saveCalled : Bool
deriving DecidableEq

/-- The user-input handler (app.py lines 210-257).  The oracles stand for the
effects performed inside the turn: `genId` is the string returned by the
`generate_location_id` call of this terminating run (its internals are
specified separately above), `saveErr` is the persistence-error oracle passed
to `save_to_mysql`, `now` the current timestamp and `aiReply` the reply of the
`ai_response` fallback. -/
def handle_user_input (st : SessionState) (db : List Row) (user_input : String)
    (genId : String) (saveErr : Option String) (now : String) (aiReply : String) :
    StepResult :=
  let hist := st.chat_history ++ [⟨"user", user_input⟩]
  let cd₁ := applyAwaiting st.collected_data st.awaiting_fields user_input
  let aw₁ : List String := if st.awaiting_fields.isEmpty then st.awaiting_fields else []
  let missing := missing_fields cd₁
  if missing.isEmpty then
    let cd₂ := if (dictGet cd₁ "location_id").isNone then dictSet cd₁ "location_id" genId else cd₁
    match st.approval_status with
    | none =>
      let reply := reviewMsg cd₂
      { state := { chat_history := hist ++ [⟨"assistant", reply⟩]
                   collected_data := cd₂
                   awaiting_fields := aw₁
                   approval_status := some "pending"
                   created_locations := st.created_locations }
        db := db, botReply := reply, saveCalled := false }
    | some status =>
      if status = "pending" then
        if pyLower user_input ∈ ["yes", "y"] then
          let cd₃ :=
            if (dictGet cd₂ "created_by").isNone then dictSet cd₂ "created_by" "AI" else cd₂
          let res := save_to_mysql cd₃ db saveErr now
          { state := { chat_history := hist ++ [⟨"assistant", res.message⟩]
                       collected_data := cd₃
                       awaiting_fields := aw₁
                       approval_status := some "approved"
                       created_locations := st.created_locations ++ res.created_append.toList }
            db := res.db, botReply := res.message, saveCalled := true }
        else if pyLower user_input ∈ ["no", "n"] then
          { state := { chat_history := hist ++ [⟨"assistant", cancelMsg⟩]
                       collected_data := cd₂
                       awaiting_fields := aw₁
                       approval_status := some "cancelled"
                       created_locations := st.created_locations }
            db := db, botReply := cancelMsg, saveCalled := false }
        else
          { state := { chat_history := hist ++ [⟨"assistant", confirmPromptMsg⟩]
                       collected_data := cd₂
                       awaiting_fields := aw₁
                       approval_status := st.approval_status
                       created_locations := st.created_locations }
            db := db, botReply := confirmPromptMsg, saveCalled := false }
      else
        { state := { chat_history := hist ++ [⟨"assistant", aiReply⟩]
                     collected_data := cd₂
                     awaiting_fields := aw₁
                     approval_status := st.approval_status
                     created_locations := st.created_locations }
          db := db, botReply := aiReply, saveCalled := false }
  else
    let reply := promptMsg missing
    { state := { chat_history := hist ++ [⟨"assistant", reply⟩]
                 collected_data := cd₁
                 awaiting_fields := missing
                 approval_status := st.approval_status
                 created_locations := st.created_locations }
      db := db, botReply := reply, saveCalled := false }

/-- The oracle inputs of one conversation turn. -/
structure TurnInput where
  user_input : String
  genId : String
  saveErr : Option String
  now : String
  aiReply : String
deriving DecidableEq

/-- Run a sequence of turns; the third component counts the `save_to_mysql`
invocations across the turns. -/
def runTurns : SessionState → List Row → List TurnInput → SessionState × List Row × Nat
  | st, db, [] => (st, db, 0)
  | st, db, t :: ts =>
    let r := handle_user_input st db t.user_input t.genId t.saveErr t.now t.aiReply
    let rest := runTurns r.state r.db ts
    (rest.1, rest.2.1, (if r.saveCalled then 1 else 0) + rest.2.2)

/-! ## Bulk import path (app.py lines 167-200) -/

/-- One parsed CSV row: `none` stands for a column absent from the uploaded
file (`row.get(col, "")` then yields the default). -/
structure CsvRow where
  location_name : Option String
  location_type : Option String
  zone : Option String
  aisle : Option String
  site_code : Option String
deriving DecidableEq

/-- The `row_data` dict built for one CSV row (app.py lines 175-183). -/
def rowDataOf (r : CsvRow) (genId : String) : Dict :=
  [("location_id", genId),
   ("location_name", pyStrip (r.location_name.getD "")),
   ("location_type", pyStrip (r.location_type.getD "")),
   ("zone", pyStrip (r.zone.getD "")),
   ("aisle", pyStrip (r.aisle.getD "")),
   ("site_code", pyStrip (r.site_code.getD "")),
   ("created_by", "CSV Upload")]

/-- The bulk upload loop (app.py lines 174-185): each row, paired with the
identifier generated for it and its persistence-error oracle, is saved
independently; the accumulated result messages, the final table and the final
`created_locations` list are returned. -/
def bulkUpload : List (CsvRow × String × Option String) → List Row → List Row → String →
    List String × List Row × List Row
  | [], db, created, _ => ([], db, created)
  | (r, gid, e) :: rest, db, created, now =>
    let res := save_to_mysql (rowDataOf r gid) db e now
    let next := bulkUpload rest res.db (created ++ res.created_append.toList) now
    (res.message :: next.1, next.2.1, next.2.2)

/-- A session state from which creation has been cancelled: the approval gate
is `"cancelled"`, no fields are awaited and no required field is missing. -/
def cancelledStable (st : SessionState) : Prop :=
  st.approval_status = some "cancelled" ∧ st.awaiting_fields = [] ∧
    missing_fields st.collected_data = []

theorem upperChar_isUpper : ∀ j : Fin 26, (Char.ofNat (65 + j.val)).isUpper = true := by
  decide

theorem digitChar_isDigit : ∀ j : Fin 10, (Char.ofNat (48 + j.val)).isDigit = true := by
  decide

theorem candidateOf_matches (d : IdDraw) : matchesIdPattern (candidateOf d) = true := by
  simp [matchesIdPattern, candidateOf, upperChar_isUpper, digitChar_isDigit]

theorem generate_location_id_spec (db : List Row) (err : Nat → Bool) (draws : Nat → IdDraw) :
    ∀ fuel i s, generate_location_id db err draws fuel i = some s →
      matchesIdPattern s = true ∧ ((∀ j, err j = false) → countId db s = 0) := by
  intro fuel
  induction fuel with
  | zero => intro i s h; simp [generate_location_id] at h
  | succ n ih =>
    intro i s h
    unfold generate_location_id at h
    cases he : err i with
    | true =>
      rw [he] at h
      simp only [if_true, Option.some.injEq] at h
      subst h
      refine ⟨candidateOf_matches (draws i), fun hj => ?_⟩
      exact absurd (hj i) (by simp [he])
    | false =>
      rw [he] at h
      simp only [Bool.false_eq_true, if_false] at h
      by_cases hc : countId db (candidateOf (draws i)) = 0
      · rw [if_pos hc, Option.some.injEq] at h
        subst h
        exact ⟨candidateOf_matches (draws i), fun _ => hc⟩
      · rw [if_neg hc] at h
        exact ih (i + 1) s h

/-! ## Dictionary and positional-assignment lemmas -/

theorem dictGet_set_self (d : Dict) (k v : String) : dictGet (dictSet d k v) k = some v := by
  induction d with
  | nil => simp [dictSet, dictGet]
  | cons kv rest ih =>
    obtain ⟨k₀, v₀⟩ := kv
    by_cases h : k₀ = k
    · simp [dictSet, dictGet, h]
    · simp [dictSet, dictGet, h, ih]

theorem dictGet_set_ne (d : Dict) {k k₁ : String} (v : String) (h : k ≠ k₁) :
    dictGet (dictSet d k v) k₁ = dictGet d k₁ := by
  induction d with
  | nil => simp [dictSet, dictGet, h]
  | cons kv rest ih =>
    obtain ⟨k₀, v₀⟩ := kv
    by_cases h₀ : k₀ = k
    · subst h₀
      simp [dictSet, dictGet, h]
    · simp [dictSet, dictGet, h₀, ih]

theorem dictGet_assign_not_mem (fs : List String) :
    ∀ (cd : Dict) (vs : List String) (k : String), k ∉ fs →
      dictGet (assignPositional cd fs vs) k = dictGet cd k := by
  induction fs with
  | nil =>
    intro cd vs k _
    cases vs <;> rfl
  | cons f ft ih =>
    intro cd vs k hk
    cases vs with
    | nil => rfl
    | cons v vt =>
      have hne : f ≠ k := fun he => hk (he ▸ List.mem_cons_self f ft)
      have hnk : k ∉ ft := fun hm => hk (List.mem_cons_of_mem f hm)
      calc dictGet (assignPositional (dictSet cd f v) ft vt) k
          = dictGet (dictSet cd f v) k := ih (dictSet cd f v) vt k hnk
        _ = dictGet cd k := dictGet_set_ne cd v hne

theorem assignPositional_get (fs : List String) :
    ∀ (cd : Dict) (vs : List String), fs.Nodup →
      ∀ i (hi : i < fs.length),
        (∀ hv : i < vs.length,
          dictGet (assignPositional cd fs vs) (fs.get ⟨i, hi⟩) = some (vs.get ⟨i, hv⟩)) ∧
        (vs.length ≤ i →
          dictGet (assignPositional cd fs vs) (fs.get ⟨i, hi⟩) = dictGet cd (fs.get ⟨i, hi⟩)) := by
  induction fs with
  | nil =>
    intro cd vs _ i hi
    exact absurd hi (Nat.not_lt_zero i)
  | cons f ft ih =>
    intro cd vs hnd i hi
    have hf : f ∉ ft := (List.nodup_cons.mp hnd).1
    have hnd' : ft.Nodup := (List.nodup_cons.mp hnd).2
    cases vs with
    | nil =>
      refine ⟨fun hv => absurd hv (Nat.not_lt_zero i), fun _ => ?_⟩
      rfl
    | cons v vt =>
      cases i with
      | zero =>
        refine ⟨fun _ => ?_, fun hle => absurd hle (by simp)⟩
        show dictGet (assignPositional (dictSet cd f v) ft vt) f = some v
        rw [dictGet_assign_not_mem ft (dictSet cd f v) vt f hf, dictGet_set_self]
      | succ j =>
        have hj : j < ft.length := Nat.lt_of_succ_lt_succ hi
        have hmem : ft.get ⟨j, hj⟩ ∈ ft := List.get_mem ft j hj
        have hne : f ≠ ft.get ⟨j, hj⟩ := fun he => hf (he ▸ hmem)
        have := ih (dictSet cd f v) vt hnd' j hj
        refine ⟨fun hv => ?_, fun hle => ?_⟩
        · exact this.1 (Nat.lt_of_succ_lt_succ hv)
        · calc dictGet (assignPositional (dictSet cd f v) ft vt) (ft.get ⟨j, hj⟩)
              = dictGet (dictSet cd f v) (ft.get ⟨j, hj⟩) :=
                this.2 (Nat.le_of_succ_le_succ hle)
            _ = dictGet cd (ft.get ⟨j, hj⟩) := dictGet_set_ne cd v hne

/-! ## State-machine lemmas -/

theorem missing_fields_set_locid (cd : Dict) (v : String) :
    missing_fields (dictSet cd "location_id" v) = missing_fields cd := by
  unfold missing_fields
  apply List.filter_congr
  intro f hf
  have hne : "location_id" ≠ f := by fin_cases hf <;> decide
  rw [dictGet_set_ne cd v hne]

theorem cancelled_step (st : SessionState) (db : List Row) (t : TurnInput)
    (h : cancelledStable st) :
    let r := handle_user_input st db t.user_input t.genId t.saveErr t.now t.aiReply
    cancelledStable r.state ∧ r.saveCalled = false ∧ r.db = db ∧ r.botReply = t.aiReply := by
  obtain ⟨hist, cd, aw, ap, cl⟩ := st
  obtain ⟨hc, ha, hm⟩ := h
  simp only at hc ha hm
  subst hc
  subst ha
  simp only [handle_user_input, applyAwaiting, List.isEmpty_nil, if_true, hm,
    reduceIte, cancelledStable]
  by_cases hid : (dictGet cd "location_id").isNone
  · simp [hid, missing_fields_set_locid, hm]
  · simp [hid, hm]

theorem cancelled_runTurns (ts : List TurnInput) :
    ∀ (st : SessionState) (db : List Row), cancelledStable st →
      cancelledStable (runTurns st db ts).1 ∧ (runTurns st db ts).2.1 = db ∧
        (runTurns st db ts).2.2 = 0 := by
  induction ts with
  | nil => intro st db h; exact ⟨h, rfl, rfl⟩
  | cons t ts ih =>
    intro st db h
    obtain ⟨h1, h2, h3, _⟩ := cancelled_step st db t h
    obtain ⟨ih1, ih2, ih3⟩ := ih _ _ h1
    simp only [runTurns]
    refine ⟨ih1, by rw [ih2, h3], ?_⟩
    rw [ih3, h2]
    rfl

/-! ## Claim theorems -/

/-- C1: every identifier returned by `generate_location_id` matches the
pattern `[A-Z]{2}[0-9]{3}`, and on every run in which no persistence-layer
error occurs during the existence checks, the returned identifier is not
present as a `location_id` among the persisted records at the time of the
check. -/
theorem generated_id_pattern_and_fresh (db : List Row) (err : Nat → Bool)
    (draws : Nat → IdDraw) (fuel i : Nat) (s : String)
    (h : generate_location_id db err draws fuel i = some s) :
    matchesIdPattern s = true ∧ ((∀ j, err j = false) → countId db s = 0) :=
  generate_location_id_spec db err draws fuel i s h

theorem generated_id_pattern_and_fresh_witness :
    matchesIdPattern "AA000" = true ∧ countId [] "AA000" = 0 := by
  have h := generated_id_pattern_and_fresh [] (fun _ => false)
      (fun _ => ⟨0, 0, 0, 0, 0⟩) 1 0 "AA000" (by decide)
  exact ⟨h.1, h.2 (fun j => rfl)⟩

/-- C2: if a persistence-layer error occurs during the existence check at the
current iteration, the generator aborts the loop and returns the last-drawn
candidate (`candidateOf (draws i)`) without verifying its uniqueness — the
conclusion holds for every `db`, including one already containing the
candidate — so every terminating run returns a string, error or not. -/
theorem generator_fail_open_on_db_error (db : List Row) (err : Nat → Bool)
    (draws : Nat → IdDraw) (fuel i : Nat) (h : err i = true) :
    generate_location_id db err draws (fuel + 1) i = some (candidateOf (draws i)) := by
  unfold generate_location_id
  rw [h]
  simp

theorem generator_fail_open_on_db_error_witness :
    generate_location_id
      [{ location_id := "AA000", location_name := "n", location_type := "t", zone := "z",
         aisle := "1", site_code := "s", created_by := "AI", created_date := "d" }]
      (fun _ => true) (fun _ => ⟨0, 0, 0, 0, 0⟩) 1 0 = some (candidateOf ⟨0, 0, 0, 0, 0⟩) :=
  generator_fail_open_on_db_error _ (fun _ => true) (fun _ => ⟨0, 0, 0, 0, 0⟩) 0 0 rfl

/-- C5: for every record handed to `save_to_mysql` the operation returns a
string result and never lets a persistence exception escape (the model is a
total function into `SaveResult`): absent a persistence error the message is
the success message carrying the record's identifier (a strict suffix of the
message), and on a persistence error it is the failure message derived from
the underlying error. -/
theorem save_returns_string_result (data : Dict) (db : List Row) (now e : String) :
    (save_to_mysql data db none now).message = successMsg (getField data "location_id") ∧
    (∃ pre, (save_to_mysql data db none now).message = pre ++ getField data "location_id") ∧
    (save_to_mysql data db (some e) now).message = dbErrorMsg e :=
  ⟨rfl, ⟨"✅ Location added to database successfully! Location ID: ", rfl⟩, rfl⟩

/-- C7: when the trimmed `location_name` of the record matches an existing
persisted name case-insensitively, `save_to_mysql` still inserts the row and
returns the success message; the duplicate check only raises the warning
flag. -/
theorem duplicate_name_warns_but_inserts (data : Dict) (db : List Row) (now : String)
    (h : dupNameExists db (pyStrip (getField data "location_name")) = true) :
    (save_to_mysql data db none now).warned = true ∧
    (save_to_mysql data db none now).db = db ++ [insertedRow data now] ∧
    (save_to_mysql data db none now).created_append = some (insertedRow data now) ∧
    (save_to_mysql data db none now).message = successMsg (getField data "location_id") :=
  ⟨h, rfl, rfl, rfl⟩

theorem duplicate_name_warns_but_inserts_witness :
    (save_to_mysql
      [("location_id", "AB123"), ("location_name", " Bay 1 "), ("location_type", "Shelf"),
       ("zone", "A"), ("aisle", "3"), ("site_code", "SITE01")]
      [{ location_id := "ZZ999", location_name := "bay 1", location_type := "Shelf",
         zone := "A", aisle := "3", site_code := "SITE01", created_by := "AI",
         created_date := "d" }]
      none "now").warned = true ∧
    (save_to_mysql
      [("location_id", "AB123"), ("location_name", " Bay 1 "), ("location_type", "Shelf"),
       ("zone", "A"), ("aisle", "3"), ("site_code", "SITE01")]
      [{ location_id := "ZZ999", location_name := "bay 1", location_type := "Shelf",
         zone := "A", aisle := "3", site_code := "SITE01", created_by := "AI",
         created_date := "d" }]
      none "now").message = successMsg "AB123" := by
  have h := duplicate_name_warns_but_inserts
      [("location_id", "AB123"), ("location_name", " Bay 1 "), ("location_type", "Shelf"),
       ("zone", "A"), ("aisle", "3"), ("site_code", "SITE01")]
      [{ location_id := "ZZ999", location_name := "bay 1", location_type := "Shelf",
         zone := "A", aisle := "3", site_code := "SITE01", created_by := "AI",
         created_date := "d" }]
      "now" (by decide)
  exact ⟨h.1, h.2.2.2⟩

/-- C10: the first user message of a session can never assign field values,
whatever its content: `awaiting_fields` starts empty, so the positional
assignment step is skipped, the collected data stays empty, and the handler
re-requests all five required fields. -/
theorem first_message_never_assigns (user_input genId : String) (saveErr : Option String)
    (now aiReply : String) (db : List Row) :
    (handle_user_input initialSessionState db user_input genId saveErr now
        aiReply).state.collected_data = [] ∧
    (handle_user_input initialSessionState db user_input genId saveErr now
        aiReply).state.awaiting_fields = required_fields ∧
    (handle_user_input initialSessionState db user_input genId saveErr now
        aiReply).state.approval_status = none ∧
    (handle_user_input initialSessionState db user_input genId saveErr now
        aiReply).saveCalled = false ∧
    (handle_user_input initialSessionState db user_input genId saveErr now
        aiReply).db = db ∧
    (handle_user_input initialSessionState db user_input genId saveErr now
        aiReply).botReply = promptMsg required_fields :=
  ⟨rfl, rfl, rfl, rfl, rfl, rfl⟩

/-- C4: with all five required fields awaited, the message
`"Bay 1, Shelf, A, 3, SITE01"` is split on commas, each value is stripped and
assigned positionally in the exact awaited order, and the awaiting list is
cleared; in general, for any duplicate-free awaited list, the i-th
comma-separated value is assigned to the i-th awaited field, extra values are
dropped, and awaited fields beyond the number of values keep their previous
binding. -/
theorem positional_assignment_behavior (genId : String) (saveErr : Option String)
    (now aiReply : String) :
    ((handle_user_input
        { chat_history := [], collected_data := [], awaiting_fields := required_fields,
          approval_status := none, created_locations := [] }
        [] "Bay 1, Shelf, A, 3, SITE01" genId saveErr now
        aiReply).state.collected_data.take 5 =
      [("location_name", "Bay 1"), ("location_type", "Shelf"), ("zone", "A"),
       ("aisle", "3"), ("site_code", "SITE01")] ∧
     (handle_user_input
        { chat_history := [], collected_data := [], awaiting_fields := required_fields,
          approval_status := none, created_locations := [] }
        [] "Bay 1, Shelf, A, 3, SITE01" genId saveErr now
        aiReply).state.awaiting_fields = []) ∧
    ∀ (cd : Dict) (aw vs : List String), aw.Nodup →
      ∀ i (hi : i < aw.length),
        (∀ hv : i < vs.length,
          dictGet (assignPositional cd aw vs) (aw.get ⟨i, hi⟩) = some (vs.get ⟨i, hv⟩)) ∧
        (vs.length ≤ i →
          dictGet (assignPositional cd aw vs) (aw.get ⟨i, hi⟩) =
            dictGet cd (aw.get ⟨i, hi⟩)) := by
  refine ⟨⟨rfl, rfl⟩, fun cd aw vs hnd => assignPositional_get aw cd vs hnd⟩

theorem positional_assignment_behavior_witness :
    dictGet (assignPositional [] ["zone", "aisle"] ["A"]) "zone" = some "A" ∧
    dictGet (assignPositional [] ["zone", "aisle"] ["A"]) "aisle" = none := by
  have h := (positional_assignment_behavior "AB123" none "t" "r").2
      [] ["zone", "aisle"] ["A"] (by decide)
  have h0 := (h 0 (by decide)).1 (by decide)
  have h1 := (h 1 (by decide)).2 (by decide)
  exact ⟨h0, h1⟩

/-- C9: a required field whose collected value is the empty string counts as
missing — `missing_fields` keeps every required field whose value is absent or
empty — so a turn that assigns an empty string to an awaited field (input
`"a,,b"` against three awaited fields) leaves that field in the missing list
and the handler re-requests it. -/
theorem empty_value_treated_as_missing (genId : String) (saveErr : Option String)
    (now aiReply : String) :
    (∀ (cd : Dict) (f : String), f ∈ required_fields → dictGet cd f = some "" →
      f ∈ missing_fields cd) ∧
    ((handle_user_input
        { chat_history := [], collected_data := [("location_name", "X"), ("location_type", "Y")],
          awaiting_fields := ["zone", "aisle", "site_code"], approval_status := none,
          created_locations := [] }
        [] "a,,b" genId saveErr now aiReply).state.collected_data =
      [("location_name", "X"), ("location_type", "Y"), ("zone", "a"), ("aisle", ""),
       ("site_code", "b")] ∧
     (handle_user_input
        { chat_history := [], collected_data := [("location_name", "X"), ("location_type", "Y")],
          awaiting_fields := ["zone", "aisle", "site_code"], approval_status := none,
          created_locations := [] }
        [] "a,,b" genId saveErr now aiReply).state.awaiting_fields = ["aisle"] ∧
     (handle_user_input
        { chat_history := [], collected_data := [("location_name", "X"), ("location_type", "Y")],
          awaiting_fields := ["zone", "aisle", "site_code"], approval_status := none,
          created_locations := [] }
        [] "a,,b" genId saveErr now aiReply).botReply = promptMsg ["aisle"] ∧
     (handle_user_input
        { chat_history := [], collected_data := [("location_name", "X"), ("location_type", "Y")],
          awaiting_fields := ["zone", "aisle", "site_code"], approval_status := none,
          created_locations := [] }
        [] "a,,b" genId saveErr now aiReply).saveCalled = false) := by
  refine ⟨fun cd f hf hv => ?_, rfl, rfl, rfl, rfl⟩
  exact List.mem_filter.mpr ⟨hf, by simp [falsyVal, hv]⟩

theorem empty_value_treated_as_missing_witness :
    "zone" ∈ missing_fields [("zone", "")] :=
  (empty_value_treated_as_missing "AB123" none "t" "r").1 [("zone", "")] "zone"
    (by decide) rfl

/-- C3: the persistence operation is never invoked while `approval_status` is
`None` or while the recomputed missing-field list is non-empty: if a turn
calls `save_to_mysql`, then the pre-turn status was `pending`, the user
message was an affirmative answer, and after the positional-assignment step
every required field had a non-empty value. -/
theorem save_gated_by_confirmation (st : SessionState) (db : List Row)
    (user_input genId : String) (saveErr : Option String) (now aiReply : String)
    (h : (handle_user_input st db user_input genId saveErr now aiReply).saveCalled = true) :
    st.approval_status = some "pending" ∧ pyLower user_input ∈ ["yes", "y"] ∧
      missing_fields (applyAwaiting st.collected_data st.awaiting_fields user_input) = [] := by
  unfold handle_user_input at h
  simp only at h
  split at h
  case isTrue hm =>
    split at h
    case h_1 => simp at h
    case h_2 status hst =>
      split at h
      case isTrue hp =>
        split at h
        case isTrue hy =>
          subst hp
          exact ⟨hst, hy, List.isEmpty_iff.mp hm⟩
        case isFalse =>
          split at h <;> simp at h
      case isFalse => simp at h
  case isFalse => simp at h

theorem save_gated_by_confirmation_witness :
    ({ chat_history := [], collected_data :=
         [("location_name", "X"), ("location_type", "Y"), ("zone", "Z"), ("aisle", "1"),
          ("site_code", "S"), ("location_id", "AB123")],
       awaiting_fields := [], approval_status := some "pending",
       created_locations := [] } : SessionState).approval_status = some "pending" ∧
    pyLower "yes" ∈ ["yes", "y"] ∧
    missing_fields (applyAwaiting
      [("location_name", "X"), ("location_type", "Y"), ("zone", "Z"), ("aisle", "1"),
       ("site_code", "S"), ("location_id", "AB123")] [] "yes") = [] :=
  save_gated_by_confirmation
    { chat_history := [], collected_data :=
        [("location_name", "X"), ("location_type", "Y"), ("zone", "Z"), ("aisle", "1"),
         ("site_code", "S"), ("location_id", "AB123")],
      awaiting_fields := [], approval_status := some "pending", created_locations := [] }
    [] "yes" "CD456" none "2024-01-01" "reply" (by decide)

/-- C6: bulk-import rows are processed independently: for any three uploaded
rows whose second row hits a persistence error, three result messages are
produced (success, failure, success), the remaining rows are still saved, and
the session's created-records export list gains exactly the two rows whose
insert succeeded. -/
theorem bulk_rows_processed_independently (r₁ r₂ r₃ : CsvRow) (g₁ g₂ g₃ e now : String)
    (db created : List Row) :
    (bulkUpload [(r₁, g₁, none), (r₂, g₂, some e), (r₃, g₃, none)] db created now).1 =
      [successMsg g₁, dbErrorMsg e, successMsg g₃] ∧
    (bulkUpload [(r₁, g₁, none), (r₂, g₂, some e), (r₃, g₃, none)] db created now).1.length = 3 ∧
    (bulkUpload [(r₁, g₁, none), (r₂, g₂, some e), (r₃, g₃, none)] db created now).2.2 =
      created ++ [insertedRow (rowDataOf r₁ g₁) now, insertedRow (rowDataOf r₃ g₃) now] ∧
    (bulkUpload [(r₁, g₁, none), (r₂, g₂, some e), (r₃, g₃, none)] db created now).2.2.length =
      created.length + 2 := by
  refine ⟨?_, ?_, ?_, ?_⟩ <;>
    simp [bulkUpload, save_to_mysql, rowDataOf, getField, dictGet, successMsg, dbErrorMsg]

/-- C8: when all five required fields are collected, a `location_id` is
assigned and the approval gate is `pending`, answering `"no"` (or `"n"`,
case-insensitively) sets the status to `cancelled`, emits the cancellation
message and performs no insert — and on every subsequent turn of the session
no insert ever happens and the reply is the language-model fallback reply of
that turn. -/
theorem answering_no_cancels_without_insert (st : SessionState) (db : List Row)
    (user_input genId : String) (saveErr : Option String) (now aiReply : String)
    (hAw : st.awaiting_fields = [])
    (hMiss : missing_fields st.collected_data = [])
    ( _hId : (dictGet st.collected_data "location_id").isSome = true)
    (hPend : st.approval_status = some "pending")
    (hNeg : pyLower user_input ∈ ["no", "n"]) :
    (handle_user_input st db user_input genId saveErr now aiReply).state.approval_status =
      some "cancelled" ∧
    (handle_user_input st db user_input genId saveErr now aiReply).botReply = cancelMsg ∧
    (handle_user_input st db user_input genId saveErr now aiReply).saveCalled = false ∧
    (handle_user_input st db user_input genId saveErr now aiReply).db = db ∧
    ∀ (ts : List TurnInput) (t : TurnInput),
      (runTurns (handle_user_input st db user_input genId saveErr now aiReply).state
          (handle_user_input st db user_input genId saveErr now aiReply).db ts).2.2 = 0 ∧
      (handle_user_input
          (runTurns (handle_user_input st db user_input genId saveErr now aiReply).state
            (handle_user_input st db user_input genId saveErr now aiReply).db ts).1
          (runTurns (handle_user_input st db user_input genId saveErr now aiReply).state
            (handle_user_input st db user_input genId saveErr now aiReply).db ts).2.1
          t.user_input t.genId t.saveErr t.now t.aiReply).saveCalled = false ∧
      (handle_user_input
          (runTurns (handle_user_input st db user_input genId saveErr now aiReply).state
            (handle_user_input st db user_input genId saveErr now aiReply).db ts).1
          (runTurns (handle_user_input st db user_input genId saveErr now aiReply).state
            (handle_user_input st db user_input genId saveErr now aiReply).db ts).2.1
          t.user_input t.genId t.saveErr t.now t.aiReply).botReply = t.aiReply := by
  have hNeg₂ : pyLower user_input = "no" ∨ pyLower user_input = "n" := by
    simpa using hNeg
  obtain ⟨hist, cd, aw, ap, cl⟩ := st
  simp only at hAw hMiss hPend
  subst hAw
  subst hPend
  have hstep : (handle_user_input ⟨hist, cd, [], some "pending", cl⟩ db user_input genId
      saveErr now aiReply).state.approval_status = some "cancelled" ∧
      (handle_user_input ⟨hist, cd, [], some "pending", cl⟩ db user_input genId
        saveErr now aiReply).botReply = cancelMsg ∧
      (handle_user_input ⟨hist, cd, [], some "pending", cl⟩ db user_input genId
        saveErr now aiReply).saveCalled = false ∧
      (handle_user_input ⟨hist, cd, [], some "pending", cl⟩ db user_input genId
        saveErr now aiReply).db = db ∧
      cancelledStable (handle_user_input ⟨hist, cd, [], some "pending", cl⟩ db user_input genId
        saveErr now aiReply).state := by
    by_cases hid : (dictGet cd "location_id").isNone <;> rcases hNeg₂ with h | h <;>
      simp [handle_user_input, applyAwaiting, hMiss, h, hid, missing_fields_set_locid,
        cancelledStable]
  obtain ⟨h1, h2, h3, h4, h5⟩ := hstep
  refine ⟨h1, h2, h3, h4, fun ts t => ?_⟩
  obtain ⟨hr1, hr2, hr3⟩ := cancelled_runTurns ts _ _ h5
  obtain ⟨hs1, hs2, hs3, hs4⟩ := cancelled_step _ _ t hr1
  exact ⟨hr3, hs2, hs4⟩

theorem answering_no_cancels_without_insert_witness :
    (handle_user_input
      { chat_history := [], collected_data :=
          [("location_name", "X"), ("location_type", "Y"), ("zone", "Z"), ("aisle", "1"),
           ("site_code", "S"), ("location_id", "AB123")],
        awaiting_fields := [], approval_status := some "pending", created_locations := [] }
      [] "no" "CD456" none "2024-01-01" "reply").state.approval_status = some "cancelled" ∧
    (runTurns
      (handle_user_input
        { chat_history := [], collected_data :=
            [("location_name", "X"), ("location_type", "Y"), ("zone", "Z"), ("aisle", "1"),
             ("site_code", "S"), ("location_id", "AB123")],
          awaiting_fields := [], approval_status := some "pending", created_locations := [] }
        [] "no" "CD456" none "2024-01-01" "reply").state
      (handle_user_input
        { chat_history := [], collected_data :=
            [("location_name", "X"), ("location_type", "Y"), ("zone", "Z"), ("aisle", "1"),
             ("site_code", "S"), ("location_id", "AB123")],
          awaiting_fields := [], approval_status := some "pending", created_locations := [] }
        [] "no" "CD456" none "2024-01-01" "reply").db
      [⟨"make another one", "EF789", none, "2024-01-02", "fallback"⟩]).2.2 = 0 := by
  have h := answering_no_cancels_without_insert
    { chat_history := [], collected_data :=
        [("location_name", "X"), ("location_type", "Y"), ("zone", "Z"), ("aisle", "1"),
         ("site_code", "S"), ("location_id", "AB123")],
      awaiting_fields := [], approval_status := some "pending", created_locations := [] }
    [] "no" "CD456" none "2024-01-01" "reply" rfl (by decide) (by decide) rfl (by decide)
  exact ⟨h.1, (h.2.2.2.2 [⟨"make another one", "EF789", none, "2024-01-02", "fallback"⟩]
    ⟨"x", "GH000", none, "2024-01-03", "y"⟩).1⟩
